import Mathlib

/-!
Verification development for the `ip-geo-tool.py` command-line utility
(single source file, `src/ip-geo-tool.py`).

The Python source is shallowly embedded below:
* JSON values that flow through the tool (the geolocation response dict,
  the enrichment dict, CSV/JSON export payloads) are modelled by `JVal`
  and ordered association lists `List (String × JVal)` (Python dicts
  preserve insertion order).
* The geolocation response (`GeoRecord`) is modelled as a structure of
  `Option` fields; a `none` field models a key absent from the dict.
* HTTP calls are modelled by passing the (possibly failing) response as
  an explicit argument; `datetime.now()` and the terminal column count
  are likewise explicit arguments.
* Python string formatting arithmetic is carried out over `Int` so that
  negative pad counts behave exactly like Python's `' ' * n` (empty
  string for `n ≤ 0`).
-/

set_option autoImplicit false

namespace IpGeoTool

/-- JSON-ish values as Python represents them after `json.loads`:
`None`, booleans, integers, strings, lists, and insertion-ordered dicts.
(Floats are not modelled; no verified property depends on float
formatting.) -/
inductive JVal where
  | jnull : JVal
  | jbool : Bool → JVal
  | jint : Int → JVal
  | jstr : String → JVal
  | jarr : List JVal → JVal
  | jobj : List (String × JVal) → JVal

open JVal

/-- Python dict lookup `d.get(k)` on an insertion-ordered association list. -/
def dictGet : List (String × JVal) → String → Option JVal
  | [], _ => none
  | (k, v) :: t, key => if k = key then some v else dictGet t key

/-- Python dict assignment `d[k] = v`: update in place if the key exists,
otherwise append at the end (insertion order semantics). -/
def dictSet : List (String × JVal) → String → JVal → List (String × JVal)
  | [], k, v => [(k, v)]
  | (k', v') :: t, k, v => if k' = k then (k', v) :: t else (k', v') :: dictSet t k v

/-- Python truthiness of a JSON value (`if x:`). -/
def jTruthy : JVal → Bool
  | jnull => false
  | jbool b => b
  | jint n => n != 0
  | jstr s => s != ""
  | jarr [] => false
  | jarr (_ :: _) => true
  | jobj [] => false
  | jobj (_ :: _) => true

/-- `str()` of a scalar as Python renders it inside f-strings and the
`csv` writer.  Containers are rendered by a simplified `repr` (the tool
never reaches that case with a container after flattening). -/
def pyStr : JVal → String
  | jnull => "None"
  | jbool true => "True"
  | jbool false => "False"
  | jint n => toString n
  | jstr s => s
  | jarr _ => "[...]"
  | jobj _ => "{...}"

/-! ## IP validator (`validate_ip`, src lines 56-62)

`validate_ip` returns `True` exactly when `socket.inet_aton` accepts the
string.  CPython's `socket.inet_aton` is a direct call into the C
library's `inet_aton`, whose documented grammar is the classic
"numbers-and-dots" notation: one to four numeric parts separated by
dots, each part a decimal, octal (leading `0`) or hexadecimal (leading
`0x`) numeral; with `n` parts the first `n-1` must fit in one byte and
the last must fit in the remaining `5-n` bytes.  The model below follows
the glibc implementation (each part read with `strtoul` base 0 after an
initial decimal-digit check, whole string consumed). -/

/-- Numeric value of a decimal digit character. -/
def digitVal (c : Char) : Nat := c.toNat - '0'.toNat

/-- Octal digit predicate. -/
def isOctDigit (c : Char) : Bool := '0' ≤ c && c ≤ '7'

/-- Hexadecimal digit predicate. -/
def isHexDigitC (c : Char) : Bool :=
  c.isDigit || ('a' ≤ c && c ≤ 'f') || ('A' ≤ c && c ≤ 'F')

/-- Numeric value of a hexadecimal digit character. -/
def hexVal (c : Char) : Nat :=
  if c.isDigit then c.toNat - '0'.toNat
  else if 'a' ≤ c && c ≤ 'f' then c.toNat - 'a'.toNat + 10
  else if 'A' ≤ c && c ≤ 'F' then c.toNat - 'A'.toNat + 10
  else 0

/-- Accumulating numeral scanner: consume characters satisfying `p`,
folding their values into `acc` with radix `base`; return the value and
the unconsumed rest (the core of `strtoul`). -/
def parseLoop (p : Char → Bool) (f : Char → Nat) (base : Nat) :
    Nat → List Char → Nat × List Char
  | acc, [] => (acc, [])
  | acc, c :: cs =>
    if p c then parseLoop p f base (acc * base + f c) cs else (acc, c :: cs)

/-- One numeric part of the numbers-and-dots notation, as glibc
`inet_aton` reads it: the first character must be a decimal digit, then
the numeral is read with `strtoul` base 0 (leading `0x` → hex, leading
`0` → octal, otherwise decimal).  Returns the value and the rest of the
input, or `none` when the input does not start with a digit. -/
def parseNum : List Char → Option (Nat × List Char)
  | [] => none
  | c :: cs =>
    if c.isDigit then
      if c = '0' then
        match cs with
        | x :: cs' =>
          if x = 'x' ∨ x = 'X' then
            match cs' with
            | d :: _ =>
              if isHexDigitC d then some (parseLoop isHexDigitC hexVal 16 0 cs')
              else some (0, cs)
            | [] => some (0, cs)
          else some (parseLoop isOctDigit digitVal 8 0 cs)
        | [] => some (0, [])
      else some (parseLoop Char.isDigit digitVal 10 (digitVal c) cs)
    else none

/-- Main `inet_aton` loop.  `rem` is the number of address bytes still
available (starting at 4).  A part followed by a dot must fit in one
byte; the final part must fit in the remaining `rem` bytes; a fifth
part (dot with `rem = 0` exhausted) is rejected. -/
def inetLoop : Nat → List Char → Bool
  | 0, _ => false
  | rem + 1, cs =>
    match parseNum cs with
    | none => false
    | some (v, rest) =>
      match rest with
      | [] => decide (v < 256 ^ (rem + 1))
      | '.' :: rest' => decide (v ≤ 255) && inetLoop rem rest'
      | _ => false

/-- `validate_ip` (src lines 56-62): `socket.inet_aton` succeeds, i.e.
the string is in numbers-and-dots notation. -/
def validate_ip (s : String) : Bool := inetLoop 4 s.data

/-- Split a character list on `.` separators (every dot separates,
empty parts are kept). -/
def splitDots : List Char → List (List Char)
  | [] => [[]]
  | c :: cs =>
    let r := splitDots cs
    if c = '.' then [] :: r
    else
      match r with
      | [] => [[c]]
      | h :: t => (c :: h) :: t

/-- Decimal value of a digit list (most significant first). -/
def decVal (ds : List Char) : Nat := ds.foldl (fun a c => a * 10 + digitVal c) 0

/-- Written from the spec's words, for comparison with `validate_ip`:
"a syntactically valid IPv4 dotted-decimal address: exactly four decimal
octets each in 0-255 separated by exactly three dots with no extra
characters". -/
def isStrictIPv4Spec (s : String) : Bool :=
  match splitDots s.data with
  | [a, b, c, d] =>
    [a, b, c, d].all fun p => p ≠ [] && p.all Char.isDigit && decVal p ≤ 255
  | _ => false

example : validate_ip "8.8.8.8" = true := by decide
example : validate_ip "" = false := by decide
example : validate_ip "8.8.8.8.8" = false := by decide
example : validate_ip "999.1.1.1" = false := by decide
example : validate_ip "abc" = false := by decide
example : validate_ip "8.8.8" = true := by decide
example : isStrictIPv4Spec "8.8.8.8" = true := by decide
example : isStrictIPv4Spec "8.8.8" = false := by decide

/-! ## Record model

`get_ip_info` (src lines 73-88) parses the geolocation JSON body into a
dict.  `GeoRecord` models that dict: a `none` field is a key absent
from the response.  `lat`, `lon` and `offset` are integers in the model
(the tool's verified properties do not depend on float formatting);
`proxy`, `hosting`, `mobile` are booleans. -/
structure GeoRecord where
  status : Option String := none
  message : Option String := none
  country : Option String := none
  countryCode : Option String := none
  region : Option String := none
  regionName : Option String := none
  city : Option String := none
  zip : Option String := none
  lat : Option Int := none
  lon : Option Int := none
  timezone : Option String := none
  isp : Option String := none
  org : Option String := none
  asField : Option String := none
  query : Option String := none
  proxy : Option Bool := none
  hosting : Option Bool := none
  mobile : Option Bool := none
  continent : Option String := none
  continentCode : Option String := none
  district : Option String := none
  asname : Option String := none
  reverse : Option String := none
  offset : Option Int := none

/-- One dict entry per present field. -/
def optEntry (k : String) (o : Option JVal) : List (String × JVal) :=
  match o with
  | some v => [(k, v)]
  | none => []

/-- The geolocation response as the ordered dict `ip_info` that the
exporters copy wholesale (keys in the order of the requested field
list, src line 77 and 81; only present fields appear). -/
def GeoRecord.toDict (g : GeoRecord) : List (String × JVal) :=
  optEntry "status" (g.status.map jstr) ++
  optEntry "message" (g.message.map jstr) ++
  optEntry "country" (g.country.map jstr) ++
  optEntry "countryCode" (g.countryCode.map jstr) ++
  optEntry "region" (g.region.map jstr) ++
  optEntry "regionName" (g.regionName.map jstr) ++
  optEntry "city" (g.city.map jstr) ++
  optEntry "zip" (g.zip.map jstr) ++
  optEntry "lat" (g.lat.map jint) ++
  optEntry "lon" (g.lon.map jint) ++
  optEntry "timezone" (g.timezone.map jstr) ++
  optEntry "isp" (g.isp.map jstr) ++
  optEntry "org" (g.org.map jstr) ++
  optEntry "as" (g.asField.map jstr) ++
  optEntry "query" (g.query.map jstr) ++
  optEntry "proxy" (g.proxy.map jbool) ++
  optEntry "hosting" (g.hosting.map jbool) ++
  optEntry "mobile" (g.mobile.map jbool) ++
  optEntry "continent" (g.continent.map jstr) ++
  optEntry "continentCode" (g.continentCode.map jstr) ++
  optEntry "district" (g.district.map jstr) ++
  optEntry "asname" (g.asname.map jstr) ++
  optEntry "reverse" (g.reverse.map jstr) ++
  optEntry "offset" (g.offset.map jint)

/-- The fixed universe of geolocation response keys. -/
def geoKeys : List String :=
  ["status", "message", "country", "countryCode", "region", "regionName",
   "city", "zip", "lat", "lon", "timezone", "isp", "org", "as", "query",
   "proxy", "hosting", "mobile", "continent", "continentCode", "district",
   "asname", "reverse", "offset"]

/-! ## Country enrichment client (`get_additional_info`, src lines 90-115) -/

/-- The country object of the restcountries response, restricted to the
fields the tool reads.  A `none` field is an absent key. -/
structure CountryData where
  population : Option Int := none
  capital : Option (List String) := none
  currencies : Option (List (String × JVal)) := none
  languages : Option (List (String × JVal)) := none
  flags : Option (List (String × String)) := none
  region : Option String := none
  subregion : Option String := none

/-- `Option` to JSON value (`country.get(k)` yields `None` when absent). -/
def optIntJ : Option Int → JVal
  | none => jnull
  | some n => jint n

/-- `Option String` to JSON value. -/
def optStrJ : Option String → JVal
  | none => jnull
  | some s => jstr s

/-- String-dict lookup (for `country.get('flags', dict()).get('png', '')`). -/
def strDictGet : List (String × String) → String → Option String
  | [], _ => none
  | (k, v) :: t, key => if k = key then some v else strDictGet t key

/-- `get_additional_info` (src lines 90-115).  The HTTP exchange is
modelled by the explicit `resp` argument: `Except.error` stands for any
raised exception (network error, malformed JSON), `Except.ok` for the
parsed JSON array.  The first component of the result records whether a
request was issued; the second is the returned `additional_info` dict.
The broad `except` (src line 111) means a failure after some keys were
assigned keeps those keys: `country.get('capital', [''])[0]` raises
`IndexError` when `capital` is the empty list, so in that case only
`population` survives. -/
def get_additional_info (g : GeoRecord) (resp : Except Unit (List CountryData)) :
    Bool × List (String × JVal) :=
  if g.countryCode.isSome then
    match resp with
    | .error _ => (true, [])
    | .ok [] => (true, [])
    | .ok (c :: _) =>
      let base := [("population", optIntJ c.population)]
      match c.capital with
      | some [] => (true, base)
      | cap =>
        (true, base ++
          [("capital", jstr ((cap.getD [""]).headD "")),
           ("currencies", jobj (c.currencies.getD [])),
           ("languages", jobj (c.languages.getD [])),
           ("flag", jstr ((strDictGet (c.flags.getD []) "png").getD "")),
           ("region", optStrJ c.region),
           ("subregion", optStrJ c.subregion)])
  else (false, [])

/-! ## Terminal renderer helpers -/

/- ANSI color constants (src lines 20-31), kept at their color-mode
values (simple mode blanks them; the verified claims concern the
default color mode). -/
namespace Colors

def HEADER : String := "\x1b[95m"

def BLUE : String := "\x1b[94m"

def CYAN : String := "\x1b[96m"

def GREEN : String := "\x1b[92m"

def YELLOW : String := "\x1b[93m"

def RED : String := "\x1b[91m"

def ENDC : String := "\x1b[0m"

def BOLD : String := "\x1b[1m"

def UNDERLINE : String := "\x1b[4m"

def BG_BLUE : String := "\x1b[44m"

def BG_BLACK : String := "\x1b[40m"

end Colors

/-- Python `' ' * n`: the empty string when `n ≤ 0`. -/
def spacesI (n : Int) : String := String.mk (List.replicate n.toNat ' ')

/-- Python `'─' * n`. -/
def dashesI (n : Int) : String := String.mk (List.replicate n.toNat '─')

/-- Python truthiness of `d.get(k)` for a string field (`None` and `''`
are falsy). -/
def strTruthy (o : Option String) : Bool := (o.getD "") != ""

/-- `d.get(k)` on the `additional_info` dict: `None` when absent. -/
def aiGet (ai : List (String × JVal)) (k : String) : JVal :=
  (dictGet ai k).getD jnull

/-- Digits of a natural, least significant first, with a comma inserted
after every third digit. -/
def commaRev : List Char → Nat → List Char
  | [], _ => []
  | c :: cs, i =>
    if 0 < i && i % 3 == 0 then ',' :: c :: commaRev cs (i + 1)
    else c :: commaRev cs (i + 1)

/-- Python `f"{n:,}"` for an integer: thousands separators. -/
def commaFmt (n : Int) : String :=
  let core := String.mk ((commaRev (toString n.natAbs).data.reverse 0).reverse)
  if n < 0 then "-" ++ core else core

example : commaFmt 331002651 = "331,002,651" := by decide
example : commaFmt 42 = "42" := by decide

/-- `f"{v:,}"` as applied to the population value (an integer in every
response the tool parses). -/
def commaFmtJ : JVal → String
  | jint n => commaFmt n
  | v => pyStr v

/-- Split on spaces, dropping empty chunks (the word list `textwrap`
wraps; faithful for the single-space-separated texts this tool wraps). -/
def splitWordsAux : List Char → List Char → List String
  | [], acc => if acc.isEmpty then [] else [String.mk acc.reverse]
  | c :: cs, acc =>
    if c = ' ' then
      if acc.isEmpty then splitWordsAux cs []
      else String.mk acc.reverse :: splitWordsAux cs []
    else splitWordsAux cs (c :: acc)

/-- Greedy refill: add the next word to the current line when it fits
in `w` columns with a single separating space, else start a new line. -/
def fillAux (w : Int) : List String → String → List String
  | [], cur => [cur]
  | word :: rest, cur =>
    if (cur.length : Int) + 1 + (word.length : Int) ≤ w then
      fillAux w rest (cur ++ " " ++ word)
    else cur :: fillAux w rest word

/-- Model of `textwrap.fill(text, w).split('\n')` for the texts the
tool wraps (single-space-separated words, no tabs, no hyphen breaking,
words no longer than the width). -/
def textwrap_fill (text : String) (w : Int) : List String :=
  match splitWordsAux text.data [] with
  | [] => [""]
  | word :: rest => fillAux w rest word

example : textwrap_fill "a bb ccc" 5 = ["a bb", "ccc"] := by decide
example : textwrap_fill "USD (US Dollar), EUR (Euro)" 67 =
    ["USD (US Dollar), EUR (Euro)"] := by decide

/-- The currency display strings (src lines 239-244 and, identically,
424-430): `code (name)` when the value is a dict with a `name` key,
otherwise just the code. -/
def currency_strings (l : List (String × JVal)) : List String :=
  l.map fun p =>
    match p.2 with
    | jobj m =>
      match dictGet m "name" with
      | some v => p.1 ++ " (" ++ pyStr v ++ ")"
      | none => p.1
    | _ => p.1

/-- The language display strings (src lines 255-257 and 440-442):
`name (code)`. -/
def language_strings (l : List (String × JVal)) : List String :=
  l.map fun p => pyStr p.2 ++ " (" ++ p.1 ++ ")"

example : String.intercalate ", " (currency_strings
    [("USD", jobj [("name", jstr "US Dollar")]), ("EUR", jobj [("name", jstr "Euro")])]) =
    "USD (US Dollar), EUR (Euro)" := by decide

/-- Drop ANSI escape sequences: characters between an ESC and the
closing `m` (all sequences this tool emits end in `m`).  The flag is
`true` while inside a sequence. -/
def stripAnsiAux : Bool → List Char → List Char
  | _, [] => []
  | false, c :: cs =>
    if c = '\x1b' then stripAnsiAux true cs else c :: stripAnsiAux false cs
  | true, c :: cs =>
    if c = 'm' then stripAnsiAux false cs else stripAnsiAux true cs

/-- Visible (escape-sequence-stripped) length of a terminal line. -/
def visLen (s : String) : Nat := (stripAnsiAux false s.data).length

example : visLen (Colors.GREEN ++ "│ ok " ++ Colors.ENDC) = 5 := by decide

/-! ## Terminal renderer (`display_ip_info`, src lines 117-328)

The renderer is modelled as the list of physical output lines (a `\n`
inside a `print` argument contributes an extra line).  `now` models
`datetime.now().strftime(...)`; `cols` models
`os.get_terminal_size().columns`.  The result is `none` when the
success path would raise `KeyError` on `ip_info['query']` (src line
138). -/

/-- The dict entries of a `jobj` value (`.items()`; the tool only calls
this on dict values). -/
def jObjOf : JVal → List (String × JVal)
  | jobj l => l
  | _ => []

/-- The `location` string (src lines 144-155): city, regionName,
country (with the country code in parentheses when present), the
present parts joined by `", "`. -/
def locationString (g : GeoRecord) : String :=
  String.intercalate ", "
    ((if strTruthy g.city then [g.city.getD ""] else []) ++
     (if strTruthy g.regionName then [g.regionName.getD ""] else []) ++
     (if strTruthy g.country then
        [if strTruthy g.countryCode then
           g.country.getD "" ++ " (" ++ g.countryCode.getD "" ++ ")"
         else g.country.getD ""]
      else []))

/-- The `Local Time` lines (src lines 123-130 and 193-207). -/
def timeLines (g : GeoRecord) (now : String) (w : Int) : List String :=
  let timeInfo :=
    if g.timezone.isSome then
      Colors.BLUE ++ "Local Time:" ++ Colors.ENDC ++ " " ++ now ++
        " (Approx. based on timezone)"
    else ""
  if timeInfo != "" then
    let timeDisplay := (timeInfo.replace Colors.BLUE "").replace Colors.ENDC ""
    match textwrap_fill timeDisplay (w - 4) with
    | [] => []
    | l0 :: rest =>
      (Colors.GREEN ++ "│ " ++ Colors.BLUE ++ "Local Time:" ++ Colors.ENDC ++ " " ++
        l0.replace "Local Time: " "" ++
        spacesI (w - 12 - (l0.length : Int) + ("Local Time: ".length : Int)) ++
        " " ++ Colors.GREEN ++ "│" ++ Colors.ENDC) ::
      rest.map (fun l =>
        Colors.GREEN ++ "│  " ++ l ++ spacesI (w - 4 - (l.length : Int)) ++
          " " ++ Colors.GREEN ++ "│" ++ Colors.ENDC)
  else []

/-- The `Additional Information` section (src lines 209-265): emitted
only when one of `proxy`/`hosting`/`mobile` is present or
`additional_info` is truthy. -/
def additionalSection (g : GeoRecord) (ai : List (String × JVal)) (w : Int) :
    List String :=
  if g.proxy.isSome || g.hosting.isSome || g.mobile.isSome || !ai.isEmpty then
    [Colors.GREEN ++ "├" ++ dashesI (w - 2) ++ "┤" ++ Colors.ENDC,
     Colors.GREEN ++ "│ " ++ Colors.BOLD ++ Colors.YELLOW ++ "Additional Information" ++
       spacesI (w - 23) ++ Colors.ENDC ++ " " ++ Colors.GREEN ++ "│" ++ Colors.ENDC,
     Colors.GREEN ++ "├" ++ dashesI (w - 2) ++ "┤" ++ Colors.ENDC] ++
    (match g.proxy with
     | some b =>
       let p := if b then "Yes" else "No"
       [Colors.GREEN ++ "│ " ++ Colors.BOLD ++ "Using Proxy:" ++ Colors.ENDC ++ " " ++
         p ++ spacesI (w - 15 - (p.length : Int)) ++ " " ++ Colors.GREEN ++ "│" ++ Colors.ENDC]
     | none => []) ++
    (match g.hosting with
     | some b =>
       let h := if b then "Yes" else "No"
       [Colors.GREEN ++ "│ " ++ Colors.BOLD ++ "Hosting/DC:" ++ Colors.ENDC ++ " " ++
         h ++ spacesI (w - 13 - (h.length : Int)) ++ " " ++ Colors.GREEN ++ "│" ++ Colors.ENDC]
     | none => []) ++
    (match g.mobile with
     | some b =>
       let m := if b then "Yes" else "No"
       [Colors.GREEN ++ "│ " ++ Colors.BOLD ++ "Mobile Network:" ++ Colors.ENDC ++ " " ++
         m ++ spacesI (w - 17 - (m.length : Int)) ++ " " ++ Colors.GREEN ++ "│" ++ Colors.ENDC]
     | none => []) ++
    (if !ai.isEmpty && jTruthy (aiGet ai "population") then
       let population := commaFmtJ (aiGet ai "population")
       [Colors.GREEN ++ "│ " ++ Colors.BOLD ++ "Country Population:" ++ Colors.ENDC ++ " " ++
         population ++ spacesI (w - 21 - (population.length : Int)) ++ " " ++
         Colors.GREEN ++ "│" ++ Colors.ENDC]
     else []) ++
    (if !ai.isEmpty && jTruthy (aiGet ai "capital") then
       let capital := pyStr (aiGet ai "capital")
       [Colors.GREEN ++ "│ " ++ Colors.BOLD ++ "Capital:" ++ Colors.ENDC ++ " " ++
         capital ++ spacesI (w - 10 - (capital.length : Int)) ++ " " ++
         Colors.GREEN ++ "│" ++ Colors.ENDC]
     else []) ++
    (if !ai.isEmpty && jTruthy (aiGet ai "currencies") then
       let currencies :=
         String.intercalate ", " (currency_strings (jObjOf (aiGet ai "currencies")))
       match textwrap_fill currencies (w - 13) with
       | [] => []
       | c0 :: rest =>
         (Colors.GREEN ++ "│ " ++ Colors.BOLD ++ "Currencies:" ++ Colors.ENDC ++ " " ++
           c0 ++ spacesI (w - 13 - (c0.length : Int)) ++ " " ++
           Colors.GREEN ++ "│" ++ Colors.ENDC) ::
         rest.map (fun l =>
           Colors.GREEN ++ "│            " ++ l ++ spacesI (w - 12 - (l.length : Int)) ++
             " " ++ Colors.GREEN ++ "│" ++ Colors.ENDC)
     else []) ++
    (if !ai.isEmpty && jTruthy (aiGet ai "languages") then
       let languages :=
         String.intercalate ", " (language_strings (jObjOf (aiGet ai "languages")))
       match textwrap_fill languages (w - 13) with
       | [] => []
       | l0 :: rest =>
         (Colors.GREEN ++ "│ " ++ Colors.BOLD ++ "Languages:" ++ Colors.ENDC ++ " " ++
           l0 ++ spacesI (w - 12 - (l0.length : Int)) ++ " " ++
           Colors.GREEN ++ "│" ++ Colors.ENDC) ::
         rest.map (fun l =>
           Colors.GREEN ++ "│            " ++ l ++ spacesI (w - 12 - (l.length : Int)) ++
             " " ++ Colors.GREEN ++ "│" ++ Colors.ENDC)
     else [])
  else []

/-- The three `Network Information` header lines (src lines 267-270),
printed unconditionally on the success path. -/
def networkHeader (w : Int) : List String :=
  [Colors.GREEN ++ "├" ++ dashesI (w - 2) ++ "┤" ++ Colors.ENDC,
   Colors.GREEN ++ "│ " ++ Colors.BOLD ++ Colors.YELLOW ++ "Network Information" ++
     spacesI (w - 21) ++ Colors.ENDC ++ " " ++ Colors.GREEN ++ "│" ++ Colors.ENDC,
   Colors.GREEN ++ "├" ++ dashesI (w - 2) ++ "┤" ++ Colors.ENDC]

/-- A wrapped network field: `label` first line, continuation lines
with `contPad` literal spaces after the border. -/
def wrappedField (label : String) (labelSep : String) (fillW : Int)
    (firstPad : Int) (contSpaces : Nat) (contPad : Int) (text : String) : List String :=
  match textwrap_fill text fillW with
  | [] => []
  | l0 :: rest =>
    (Colors.GREEN ++ "│ " ++ Colors.BOLD ++ label ++ Colors.ENDC ++ labelSep ++
      l0 ++ spacesI (firstPad - (l0.length : Int)) ++ " " ++
      Colors.GREEN ++ "│" ++ Colors.ENDC) ::
    rest.map (fun l =>
      Colors.GREEN ++ "│" ++ String.mk (List.replicate contSpaces ' ') ++ l ++
        spacesI (contPad - (l.length : Int)) ++ " " ++
        Colors.GREEN ++ "│" ++ Colors.ENDC)

/-- The network field lines (src lines 272-316): reverse DNS, ISP,
organization, AS, AS name — each wrapped and emitted only if truthy. -/
def networkItems (g : GeoRecord) (w : Int) : List String :=
  (if strTruthy g.reverse then
     wrappedField "Reverse DNS:" " " (w - 15) (w - 14) 14 (w - 14) (g.reverse.getD "")
   else []) ++
  (if strTruthy g.isp then
     wrappedField "ISP:" " " (w - 8) (w - 6) 6 (w - 6) (g.isp.getD "")
   else []) ++
  (if strTruthy g.org then
     wrappedField "ORG:" " " (w - 8) (w - 6) 6 (w - 6) (g.org.getD "")
   else []) ++
  (if strTruthy g.asField then
     wrappedField "AS:" "  " (w - 8) (w - 6) 6 (w - 6) (g.asField.getD "")
   else []) ++
  (if strTruthy g.asname then
     wrappedField "AS Name:" " " (w - 14) (w - 10) 10 (w - 10) (g.asname.getD "")
   else [])

/-- The two trailer prints outside the box (src lines 321-328): map
URL when both coordinates are present, flag URL when the enrichment
provided one. -/
def trailerLines (g : GeoRecord) (ai : List (String × JVal)) : List String :=
  (if g.lat.isSome && g.lon.isSome then
     let la := toString (g.lat.getD 0)
     let lo := toString (g.lon.getD 0)
     ["", Colors.BLUE ++ "View on map:" ++ Colors.ENDC ++ " " ++
       "https://www.openstreetmap.org/?mlat=" ++ la ++ "&mlon=" ++ lo ++
       "#map=12/" ++ la ++ "/" ++ lo]
   else []) ++
  (if !ai.isEmpty && jTruthy (aiGet ai "flag") then
     [Colors.BLUE ++ "Country flag:" ++ Colors.ENDC ++ " " ++ pyStr (aiGet ai "flag")]
   else [])

/-- The banner, the upper box (location block, local-time lines) and the
`Additional Information` section (src lines 136-265): everything the
success path prints before the `Network Information` header. -/
def upperBoxLines (g : GeoRecord) (ai : List (String × JVal)) (now : String)
    (q : String) (w : Int) : List String :=
  let ipHeader := "  IP: " ++ q ++ "  "
  let padLen := w - (ipHeader.length : Int) +
    ((Colors.BG_BLUE ++ Colors.BOLD ++ Colors.ENDC).length : Int)
  let location := locationString g
  ["",
         Colors.BG_BLUE ++ Colors.BOLD ++ spacesI w ++ Colors.ENDC,
         Colors.BG_BLUE ++ Colors.BOLD ++ ipHeader ++ spacesI padLen ++ Colors.ENDC,
         Colors.BG_BLUE ++ Colors.BOLD ++ spacesI w ++ Colors.ENDC,
         ""] ++
        [Colors.GREEN ++ "┌" ++ dashesI (w - 2) ++ "┐" ++ Colors.ENDC] ++
        [Colors.GREEN ++ "│ " ++ Colors.BOLD ++ "Location:" ++ Colors.ENDC ++ " " ++
          location ++ spacesI (w - 11 - (location.length : Int)) ++ " " ++
          Colors.GREEN ++ "│" ++ Colors.ENDC] ++
        (if strTruthy g.continent then
           let continent := g.continent.getD "" ++ " (" ++ g.continentCode.getD "" ++ ")"
           [Colors.GREEN ++ "│ " ++ Colors.BOLD ++ "Continent:" ++ Colors.ENDC ++ " " ++
             continent ++ spacesI (w - 12 - (continent.length : Int)) ++ " " ++
             Colors.GREEN ++ "│" ++ Colors.ENDC]
         else []) ++
        (if strTruthy g.district then
           let district := g.district.getD ""
           [Colors.GREEN ++ "│ " ++ Colors.BOLD ++ "District:" ++ Colors.ENDC ++ " " ++
             district ++ spacesI (w - 11 - (district.length : Int)) ++ " " ++
             Colors.GREEN ++ "│" ++ Colors.ENDC]
         else []) ++
        (if g.lat.isSome && g.lon.isSome then
           let coords := toString (g.lat.getD 0) ++ ", " ++ toString (g.lon.getD 0)
           [Colors.GREEN ++ "│ " ++ Colors.BOLD ++ "Coordinates:" ++ Colors.ENDC ++ " " ++
             coords ++ spacesI (w - 14 - (coords.length : Int)) ++ " " ++
             Colors.GREEN ++ "│" ++ Colors.ENDC]
         else []) ++
        (if strTruthy g.zip then
           let zipCode := g.zip.getD ""
           [Colors.GREEN ++ "│ " ++ Colors.BOLD ++ "Postal Code:" ++ Colors.ENDC ++ " " ++
             zipCode ++ spacesI (w - 14 - (zipCode.length : Int)) ++ " " ++
             Colors.GREEN ++ "│" ++ Colors.ENDC]
         else []) ++
        (if strTruthy g.timezone then
           let timezone := g.timezone.getD ""
           [Colors.GREEN ++ "│ " ++ Colors.BOLD ++ "Timezone:" ++ Colors.ENDC ++ " " ++
             timezone ++ spacesI (w - 11 - (timezone.length : Int)) ++ " " ++
             Colors.GREEN ++ "│" ++ Colors.ENDC]
         else []) ++
        (match g.offset with
         | some off =>
           let offStr := "UTC " ++ (if 0 ≤ off then "+" else "") ++ toString off
           [Colors.GREEN ++ "│ " ++ Colors.BOLD ++ "Time Offset:" ++ Colors.ENDC ++ " " ++
             offStr ++ spacesI (w - 14 - (offStr.length : Int)) ++ " " ++
             Colors.GREEN ++ "│" ++ Colors.ENDC]
         | none => []) ++
        timeLines g now w ++
        additionalSection g ai w

/-- The bottom border of the box (src line 319). -/
def bottomBorder (w : Int) : List String :=
  [Colors.GREEN ++ "└" ++ dashesI (w - 2) ++ "┘" ++ Colors.ENDC]

/-- `display_ip_info` (src lines 117-328) as the list of physical
terminal lines.  The `Network Information` header follows the upper box
unconditionally (src lines 267-270). -/
def display_ip_info (g : GeoRecord) (ai : List (String × JVal)) (now : String)
    (cols : Nat) : Option (List String) :=
  if g.status ≠ some "success" then
    some [Colors.RED ++ "Error: " ++ g.message.getD "Unknown error" ++ Colors.ENDC]
  else
    match g.query with
    | none => none
    | some q =>
      let w : Int := min 80 ((cols : Int) - 4)
      some (upperBoxLines g ai now q w ++ networkHeader w ++ networkItems g w ++
        bottomBorder w ++ trailerLines g ai)

/-! ## JSON exporter (`export_to_json`, src lines 330-344)

File I/O and `json.dump`/`json.load` are modelled at the object level:
`json.dump` with string keys followed by `json.load` is the identity on
the dict, so the exported file is modelled by the dict that is dumped.
`ts` models `datetime.now().strftime(...)`. -/

/-- The dict `export_to_json` serializes: a copy of `ip_info`, then
`additional_info` under its own key when truthy, then the timestamp. -/
def export_to_json_data (g : GeoRecord) (ai : List (String × JVal)) (ts : String) :
    List (String × JVal) :=
  let data := g.toDict
  let data := if !ai.isEmpty then dictSet data "additional_info" (jobj ai) else data
  dictSet data "timestamp" (jstr ts)

/-! ## CSV exporter (`export_to_csv`, src lines 346-368) -/

/-- The flattening of a dict-valued enrichment field (src line 355):
`k: v` for string values, bare `k` otherwise, joined by `", "`. -/
def csvFlattenDict (l : List (String × JVal)) : String :=
  String.intercalate ", "
    (l.map fun p =>
      match p.2 with
      | jstr s => p.1 ++ ": " ++ s
      | _ => p.1)

/-- One flattened enrichment value (src lines 352-358). -/
def csvFlattenVal : JVal → JVal
  | jobj l => jstr (csvFlattenDict l)
  | v => v

/-- `flat_data` (src lines 349-361): the `ip_info` copy, each
enrichment entry under an `additional_`-prefixed key (dicts flattened),
then the timestamp. -/
def export_to_csv_flat (g : GeoRecord) (ai : List (String × JVal)) (ts : String) :
    List (String × JVal) :=
  let flat := ai.foldl
    (fun acc p => dictSet acc ("additional_" ++ p.1) (csvFlattenVal p.2)) g.toDict
  dictSet flat "timestamp" (jstr ts)

/-- A CSV cell as `csv.writer` renders a Python value: strings
unchanged, `None` as the empty string, other scalars via `str()`. -/
def csvCell : JVal → String
  | jnull => ""
  | v => pyStr v

/-- Serialize one CSV record with minimal quoting (a cell containing
the delimiter, a quote or a line break is wrapped in double quotes,
with inner quotes doubled). -/
def csvQuoteCell (s : String) : String :=
  if s.data.any (fun c => c = ',' || c = '"' || c = '\n' || c = '\r') then
    "\"" ++ String.mk (s.data.flatMap fun c => if c = '"' then ['"', '"'] else [c]) ++ "\""
  else s

/-- The two CSV records `export_to_csv` writes: the header row of field
names (`writeheader`, src line 365) and the single data row
(`writerow`, src line 366). -/
def export_to_csv_records (g : GeoRecord) (ai : List (String × JVal)) (ts : String) :
    List (List String) :=
  let flat := export_to_csv_flat g ai ts
  [flat.map Prod.fst, flat.map fun p => csvCell p.2]

/-- The text lines of the CSV file (one serialized line per record). -/
def export_to_csv_lines (g : GeoRecord) (ai : List (String × JVal)) (ts : String) :
    List String :=
  (export_to_csv_records g ai ts).map fun r =>
    String.intercalate "," (r.map csvQuoteCell)

/-! ## HTML exporter (`export_to_html`): the additional-information
table builder (src lines 404-459), the part of the template the claims
concern. -/

/-- One `additional_rows` table row chunk of the HTML template, with the
template's literal newlines and indentation. -/
def htmlRow (label : String) (value : String) : String :=
  "\n            <tr>\n                <td>" ++ label ++
    "</td>\n                <td>" ++ value ++ "</td>\n            </tr>\n            "

/-- `additional_rows` (src lines 406-449): population (thousands
separators), capital, currencies (`code (name)` joined by `", "`),
languages (`name (code)` joined by `", "`), each only when truthy. -/
def html_additional_rows (ai : List (String × JVal)) : String :=
  (if jTruthy (aiGet ai "population") then
     htmlRow "Population" (commaFmtJ (aiGet ai "population"))
   else "") ++
  (if jTruthy (aiGet ai "capital") then
     htmlRow "Capital" (pyStr (aiGet ai "capital"))
   else "") ++
  (if jTruthy (aiGet ai "currencies") then
     htmlRow "Currencies"
       (String.intercalate ", " (currency_strings (jObjOf (aiGet ai "currencies"))))
   else "") ++
  (if jTruthy (aiGet ai "languages") then
     htmlRow "Languages"
       (String.intercalate ", " (language_strings (jObjOf (aiGet ai "languages"))))
   else "")

/-! ## CLI orchestration (`main`, src lines 696-747): the IP selection
step (lines 720-729). -/

/-- The IP-selection logic of `main`: with no (or an empty) positional
argument the public-IP service's response string is used as-is; with a
non-empty argument `validate_ip` is consulted and failure exits.
Returns the IP passed to the geolocation lookup paired with whether
`validate_ip` was invoked on it; `none` models `sys.exit(1)`. -/
def main_select_ip (argIp : Option String) (publicIp : String) :
    Option (String × Bool) :=
  if argIp.getD "" = "" then some (publicIp, false)
  else if validate_ip (argIp.getD "") then some (argIp.getD "", true)
  else none

/-! ## Dict and string lemmas -/

theorem dictGet_append_of_some {l₁ l₂ : List (String × JVal)} {k : String} {v : JVal}
    (h : dictGet l₁ k = some v) : dictGet (l₁ ++ l₂) k = some v := by
  induction l₁ with
  | nil => simp [dictGet] at h
  | cons p t ih =>
    rw [List.cons_append]
    rw [show dictGet (p :: t) k = if p.1 = k then some p.2 else dictGet t k from rfl] at h
    rw [show dictGet (p :: (t ++ l₂)) k =
      if p.1 = k then some p.2 else dictGet (t ++ l₂) k from rfl]
    by_cases hk : p.1 = k
    · rwa [if_pos hk] at h ⊢
    · rw [if_neg hk] at h ⊢; exact ih h

theorem dictGet_append_of_none {l₁ l₂ : List (String × JVal)} {k : String}
    (h : dictGet l₁ k = none) : dictGet (l₁ ++ l₂) k = dictGet l₂ k := by
  induction l₁ with
  | nil => rfl
  | cons p t ih =>
    rw [show dictGet (p :: t) k = if p.1 = k then some p.2 else dictGet t k from rfl] at h
    rw [List.cons_append,
      show dictGet (p :: (t ++ l₂)) k =
        if p.1 = k then some p.2 else dictGet (t ++ l₂) k from rfl]
    by_cases hk : p.1 = k
    · rw [if_pos hk] at h; exact absurd h (by simp)
    · rw [if_neg hk] at h; rw [if_neg hk]; exact ih h

theorem dictGet_eq_none {l : List (String × JVal)} {k : String}
    (h : k ∉ l.map Prod.fst) : dictGet l k = none := by
  induction l with
  | nil => rfl
  | cons p t ih =>
    rw [show dictGet (p :: t) k = if p.1 = k then some p.2 else dictGet t k from rfl]
    rw [List.map_cons, List.mem_cons] at h
    push_neg at h
    rw [if_neg (fun e => h.1 e.symm)]
    exact ih h.2

theorem dictSet_fresh {l : List (String × JVal)} {k : String} (v : JVal)
    (h : k ∉ l.map Prod.fst) : dictSet l k v = l ++ [(k, v)] := by
  induction l with
  | nil => rfl
  | cons p t ih =>
    rw [List.map_cons, List.mem_cons] at h
    push_neg at h
    rw [show dictSet (p :: t) k v =
      if p.1 = k then (p.1, v) :: t else p :: dictSet t k v from rfl]
    rw [if_neg (fun e => h.1 e.symm), ih h.2, List.cons_append]

theorem str_data_append (a b : String) : (a ++ b).data = a.data ++ b.data := rfl

theorem str_length_append (a b : String) : (a ++ b).length = a.length + b.length := by
  cases a; cases b
  simp [String.length, String.append]

theorem str_ext {a b : String} (h : a.data = b.data) : a = b := by
  cases a; cases b; exact congrArg String.mk h

theorem str_append_left_cancel {p a b : String} (h : p ++ a = p ++ b) : a = b := by
  have hd := congrArg String.data h
  rw [str_data_append, str_data_append] at hd
  exact str_ext (List.append_cancel_left hd)

/-! ## Freshness of the exporter-added keys -/

theorem geoKeys_no_underscore : ∀ s ∈ geoKeys, '_' ∉ s.data := by decide

theorem mem_map_fst_optEntry {k k' : String} {o : Option JVal}
    (h : k ∈ (optEntry k' o).map Prod.fst) : k = k' := by
  cases o <;> simp [optEntry] at h
  exact h

theorem optEntry_keys_sub {k' : String} {o : Option JVal} {l : List String}
    (h : k' ∈ l) : (optEntry k' o).map Prod.fst ⊆ l := by
  intro k hk
  rw [mem_map_fst_optEntry hk]
  exact h

theorem toDict_keys_mem (g : GeoRecord) :
    ∀ k ∈ g.toDict.map Prod.fst, k ∈ geoKeys := by
  have hsub : g.toDict.map Prod.fst ⊆ geoKeys := by
    rw [GeoRecord.toDict]
    simp only [List.map_append, List.append_subset]
    repeat' apply And.intro
    all_goals exact optEntry_keys_sub (by decide)
  exact fun k hk => hsub hk

theorem not_mem_toDict_of_underscore (g : GeoRecord) {k : String}
    (h : '_' ∈ k.data) : k ∉ g.toDict.map Prod.fst :=
  fun hk => geoKeys_no_underscore k (toDict_keys_mem g k hk) h

theorem underscore_mem_additional (k : String) : '_' ∈ ("additional_" ++ k).data := by
  rw [str_data_append]
  exact List.mem_append_left _ (by decide)

theorem timestamp_not_mem_toDict (g : GeoRecord) :
    "timestamp" ∉ g.toDict.map Prod.fst :=
  fun hk => absurd (toDict_keys_mem g _ hk) (by decide)

theorem timestamp_ne_additional (k : String) : "timestamp" ≠ "additional_" ++ k := by
  intro h
  have hl := congrArg String.length h
  rw [str_length_append] at hl
  have h9 : ("timestamp" : String).length = 9 := rfl
  have h11 : ("additional_" : String).length = 11 := rfl
  rw [h9, h11] at hl
  omega

/-! ## Claim theorems -/

/-- C1: the claim says every line of the terminal box region has visible
length exactly `min 80 (columns - 4)`.  The code contradicts it: at 84
columns (width 80), a minimal success record renders border lines of
visible length 80, but the `Location:` line is 83 visible characters
and the `Network Information` title line is 82, so the right border is
ragged.  The list below gives the visible length of each of the eleven
output lines. -/
theorem c1_box_lines_ragged :
    ((display_ip_info { status := some "success", query := some "1.2.3.4" } []
        "2025-03-01 12:00:00" 84).getD []).map visLen =
      [0, 80, 93, 80, 0, 80, 83, 80, 82, 80, 80] ∧ (83 : Nat) ≠ 80 :=
  ⟨by decide, by decide⟩

/-- C6: for a record whose status is not `success`, the renderer emits
only the error line carrying the record's message (defaulting to
`Unknown error`) — no box, no location, network or trailer data. -/
theorem c6_fail_only_error_line (g : GeoRecord) (ai : List (String × JVal))
    (now : String) (cols : Nat) (h : g.status ≠ some "success") :
    display_ip_info g ai now cols =
      some [Colors.RED ++ "Error: " ++ g.message.getD "Unknown error" ++ Colors.ENDC] := by
  unfold display_ip_info
  rw [if_pos h]

/-- C6 witness: the renderer at the fail record of the claim. -/
theorem c6_fail_witness :
    display_ip_info { status := some "fail", message := some "invalid query" } []
      "2025-03-01 12:00:00" 80 =
      some [Colors.RED ++ "Error: " ++ "invalid query" ++ Colors.ENDC] :=
  c6_fail_only_error_line _ _ _ _ (by decide)

/-- C7 counterexample: the claim says every failure of the lookup
yields null/no-enrichment.  But a country object whose `capital` is the
empty list raises `IndexError` at src line 105 after `population` was
assigned at line 104; the broad `except` keeps the partial dict, so the
returned enrichment is the nonempty `population`-only dict — which
every consumer's truthiness test treats as present enrichment. -/
theorem c7_partial_enrichment_counterexample :
    (({ population := some 5, capital := some [] } : CountryData).capital
        = some []) ∧
    (get_additional_info { countryCode := some "TT", status := some "success" }
      (Except.ok [{ population := some 5, capital := some [] }])).2 =
      [("population", jint 5)] ∧
    ((get_additional_info { countryCode := some "TT", status := some "success" }
      (Except.ok [{ population := some 5, capital := some [] }])).2).isEmpty
      = false :=
  ⟨rfl, rfl, rfl⟩

/-- C7 amended: the enrichment client is total in the model (the broad
`except` swallows every raised failure, never aborting the run); with no
`countryCode` key it returns the empty dict without issuing a request,
and a raised exception or an empty response array also yield the empty
dict — but a country object with an empty `capital` list fails after
`population` was assigned and returns the partial, nonempty
`population`-only dict rather than no-enrichment. -/
theorem c7_enrichment_amended (g : GeoRecord)
    (resp : Except Unit (List CountryData)) :
    (g.countryCode = none →
      ∀ r : Except Unit (List CountryData), get_additional_info g r = (false, [])) ∧
    (∀ e : Unit, resp = Except.error e → (get_additional_info g resp).2 = []) ∧
    (resp = Except.ok [] → (get_additional_info g resp).2 = []) ∧
    (∀ c rest, resp = Except.ok (c :: rest) → c.capital = some [] →
      g.countryCode.isSome = true →
      (get_additional_info g resp).2 = [("population", optIntJ c.population)]) := by
  refine ⟨fun h r => ?_, fun e he => ?_, fun he => ?_, fun c rest he hcap hcc => ?_⟩
  · simp [get_additional_info, h]
  · subst he
    by_cases hc : g.countryCode.isSome <;> simp [get_additional_info, hc]
  · subst he
    by_cases hc : g.countryCode.isSome <;> simp [get_additional_info, hc]
  · subst he
    simp [get_additional_info, hcc, hcap]

/-- C4 counterexample: the claim says sub-fields absent from the
provider's country object are absent from the enrichment record.  In
fact, with `capital` and `flags` absent, the enrichment dict still
carries `capital` and `flag` keys holding empty-string placeholders. -/
theorem c4_absent_subfields_become_placeholders :
    (({ population := some 5 } : CountryData).capital = none) ∧
    (({ population := some 5 } : CountryData).flags = none) ∧
    dictGet (get_additional_info { countryCode := some "TT", status := some "success" }
      (Except.ok [{ population := some 5 }])).2 "capital" = some (jstr "") ∧
    dictGet (get_additional_info { countryCode := some "TT", status := some "success" }
      (Except.ok [{ population := some 5 }])).2 "flag" = some (jstr "") :=
  ⟨rfl, rfl, rfl, rfl⟩

/-- C4 amended: on a successful lookup (nonempty array, `capital` not
the empty list), all seven enrichment keys are always present; an
absent `capital` or flag URL becomes an empty-string placeholder, absent
`population`/`region`/`subregion` become null values, absent
`currencies`/`languages` become empty dicts. -/
theorem c4_enrichment_fields_amended (g : GeoRecord) (c : CountryData)
    (rest : List CountryData) (hcc : g.countryCode.isSome = true)
    (hcap : c.capital ≠ some []) :
    ((get_additional_info g (Except.ok (c :: rest))).2.map Prod.fst =
      ["population", "capital", "currencies", "languages", "flag", "region",
       "subregion"]) ∧
    (c.capital = none →
      dictGet (get_additional_info g (Except.ok (c :: rest))).2 "capital" =
        some (jstr "")) ∧
    (c.flags = none →
      dictGet (get_additional_info g (Except.ok (c :: rest))).2 "flag" =
        some (jstr "")) ∧
    (c.population = none →
      dictGet (get_additional_info g (Except.ok (c :: rest))).2 "population" =
        some jnull) ∧
    (c.currencies = none →
      dictGet (get_additional_info g (Except.ok (c :: rest))).2 "currencies" =
        some (jobj [])) ∧
    (c.languages = none →
      dictGet (get_additional_info g (Except.ok (c :: rest))).2 "languages" =
        some (jobj [])) ∧
    (c.region = none →
      dictGet (get_additional_info g (Except.ok (c :: rest))).2 "region" =
        some jnull) ∧
    (c.subregion = none →
      dictGet (get_additional_info g (Except.ok (c :: rest))).2 "subregion" =
        some jnull) := by
  rcases hc : c.capital with _ | ⟨_ | ⟨h0, t⟩⟩
  · refine ⟨?_, ?_, ?_, ?_, ?_, ?_, ?_, ?_⟩ <;>
      intros <;> simp_all [get_additional_info, hcc, hc, dictGet, optIntJ, optStrJ, strDictGet]
  · exact absurd hc hcap
  · refine ⟨?_, ?_, ?_, ?_, ?_, ?_, ?_, ?_⟩ <;>
      intros <;> simp_all [get_additional_info, hcc, hc, dictGet, optIntJ, optStrJ, strDictGet]

/-- C4 witness: a concrete country object with no capital and no flags. -/
theorem c4_enrichment_fields_witness :
    dictGet (get_additional_info { countryCode := some "DE" }
      (Except.ok [{ population := some 83000000 }])).2 "capital" = some (jstr "") :=
  (c4_enrichment_fields_amended { countryCode := some "DE" }
    { population := some 83000000 } [] (by decide) (by decide)).2.1 rfl

/-- C3 counterexample: the claim says the CSV exporter also renders the
currencies mapping as `USD (US Dollar), EUR (Euro)`.  In fact the CSV
flattener emits `k: v` only for string values, so the dict-valued
currencies collapse to the bare codes `USD, EUR`. -/
theorem c3_csv_currencies_loses_names :
    dictGet (export_to_csv_flat { status := some "success", query := some "8.8.8.8" }
      [("currencies", jobj [("USD", jobj [("name", jstr "US Dollar")]),
                            ("EUR", jobj [("name", jstr "Euro")])])]
      "2025-03-01 12:00:00") "additional_currencies" = some (jstr "USD, EUR") ∧
    ("USD, EUR" : String) ≠ "USD (US Dollar), EUR (Euro)" :=
  ⟨rfl, by decide⟩

/-- C3 amended: with
`currencies = USD ↦ (name: US Dollar), EUR ↦ (name: Euro)`, the terminal
renderer and the HTML exporter both render
`USD (US Dollar), EUR (Euro)` preserving insertion order, while the CSV
exporter renders only the codes, `USD, EUR`. -/
theorem c3_currencies_rendering :
    (Colors.GREEN ++ "│ " ++ Colors.BOLD ++ "Currencies:" ++ Colors.ENDC ++ " " ++
        "USD (US Dollar), EUR (Euro)" ++ spacesI 40 ++ " " ++
        Colors.GREEN ++ "│" ++ Colors.ENDC) ∈
      (display_ip_info { status := some "success", query := some "8.8.8.8" }
        [("currencies", jobj [("USD", jobj [("name", jstr "US Dollar")]),
                              ("EUR", jobj [("name", jstr "Euro")])])]
        "2025-03-01 12:00:00" 84).getD [] ∧
    html_additional_rows
      [("currencies", jobj [("USD", jobj [("name", jstr "US Dollar")]),
                            ("EUR", jobj [("name", jstr "Euro")])])] =
      htmlRow "Currencies" "USD (US Dollar), EUR (Euro)" ∧
    dictGet (export_to_csv_flat { status := some "success", query := some "8.8.8.8" }
      [("currencies", jobj [("USD", jobj [("name", jstr "US Dollar")]),
                            ("EUR", jobj [("name", jstr "Euro")])])]
      "2025-03-01 12:00:00") "additional_currencies" = some (jstr "USD, EUR") :=
  ⟨by decide, rfl, rfl⟩

/-- C5 counterexample: the claim says each section is emitted only when
it has a field to show.  For a success record with every network field
absent, the `Network Information` header (title line shown here) is
still printed. -/
theorem c5_network_header_unconditional :
    (({ status := some "success", query := some "1.2.3.4" } : GeoRecord).reverse
        = none) ∧
    (({ status := some "success", query := some "1.2.3.4" } : GeoRecord).isp
        = none) ∧
    (({ status := some "success", query := some "1.2.3.4" } : GeoRecord).org
        = none) ∧
    (({ status := some "success", query := some "1.2.3.4" } : GeoRecord).asField
        = none) ∧
    (({ status := some "success", query := some "1.2.3.4" } : GeoRecord).asname
        = none) ∧
    (Colors.GREEN ++ "│ " ++ Colors.BOLD ++ Colors.YELLOW ++ "Network Information" ++
        spacesI 59 ++ Colors.ENDC ++ " " ++ Colors.GREEN ++ "│" ++ Colors.ENDC) ∈
      (display_ip_info { status := some "success", query := some "1.2.3.4" } []
        "2025-03-01 12:00:00" 84).getD [] :=
  ⟨rfl, rfl, rfl, rfl, rfl, by decide⟩

/-- C10: with no positional IP argument (or an empty one), the public-IP
response string — whatever it is — is passed to the geolocation lookup
with the validator never consulted; a non-empty user-supplied argument
is passed through `validate_ip`, and rejection exits. -/
theorem c10_public_ip_unvalidated (pub s : String) (hs : s ≠ "") :
    main_select_ip none pub = some (pub, false) ∧
    main_select_ip (some "") pub = some (pub, false) ∧
    main_select_ip (some s) pub =
      (if validate_ip s then some (s, true) else none) := by
  refine ⟨rfl, rfl, ?_⟩
  rw [main_select_ip]
  rw [if_neg (by simpa using hs)]
  by_cases hv : validate_ip s
  · rw [if_pos (by simpa using hv), if_pos hv]
    rfl
  · rw [if_neg (by simpa using hv), if_neg hv]

/-- C10 witness: a non-IP public-IP response is forwarded unchecked; a
valid user-supplied IP goes through the validator. -/
theorem c10_public_ip_witness :
    main_select_ip none "not.an.ip.response" = some ("not.an.ip.response", false) ∧
    main_select_ip (some "") "not.an.ip.response" =
      some ("not.an.ip.response", false) ∧
    main_select_ip (some "8.8.8.8") "not.an.ip.response" =
      (if validate_ip "8.8.8.8" then some ("8.8.8.8", true) else none) :=
  c10_public_ip_unvalidated "not.an.ip.response" "8.8.8.8" (by decide)

/-- C5 amended: on the success path the `Additional Information` section
is emitted iff one of `proxy`/`hosting`/`mobile` is present or the
enrichment dict is truthy, while the banner, the `Location` line and the
`Network Information` header are emitted unconditionally — the output
always contains the network header, even when every network field is
absent (in which case the section body is empty). -/
theorem c5_sections_amended (g : GeoRecord) (ai : List (String × JVal))
    (now : String) (cols : Nat) (q : String) (hs : g.status = some "success")
    (hq : g.query = some q) :
    (additionalSection g ai (min 80 ((cols : Int) - 4)) = [] ↔
      (g.proxy = none ∧ g.hosting = none ∧ g.mobile = none ∧ ai = [])) ∧
    display_ip_info g ai now cols =
      some (upperBoxLines g ai now q (min 80 ((cols : Int) - 4)) ++
        networkHeader (min 80 ((cols : Int) - 4)) ++
        networkItems g (min 80 ((cols : Int) - 4)) ++
        bottomBorder (min 80 ((cols : Int) - 4)) ++ trailerLines g ai) ∧
    ((strTruthy g.reverse = false ∧ strTruthy g.isp = false ∧
      strTruthy g.org = false ∧ strTruthy g.asField = false ∧
      strTruthy g.asname = false) →
      networkItems g (min 80 ((cols : Int) - 4)) = []) := by
  refine ⟨?_, ?_, ?_⟩
  · rw [additionalSection]
    by_cases hc : (g.proxy.isSome || g.hosting.isSome || g.mobile.isSome ||
        !ai.isEmpty) = true
    · rw [if_pos hc]
      simp only [List.cons_append]
      constructor
      · intro h; exact absurd h (List.cons_ne_nil _ _)
      · rintro ⟨h1, h2, h3, h4⟩
        rw [h1, h2, h3, h4] at hc
        simp at hc
    · rw [if_neg hc]
      simp only [Bool.not_eq_true, Bool.or_eq_false_iff, Bool.not_eq_false] at hc
      constructor
      · intro _
        exact ⟨Option.not_isSome_iff_eq_none.mp (by simp [hc.1.1.1]),
          Option.not_isSome_iff_eq_none.mp (by simp [hc.1.1.2]),
          Option.not_isSome_iff_eq_none.mp (by simp [hc.1.2]),
          List.isEmpty_iff.mp (by simpa using hc.2)⟩
      · intro _; rfl
  · unfold display_ip_info
    rw [if_neg (fun hne => hne hs), hq]
  · rintro ⟨h1, h2, h3, h4, h5⟩
    rw [networkItems, h1, h2, h3, h4, h5]
    simp

/-- C5 witness: the section-presence equivalence at a minimal success
record. -/
theorem c5_sections_witness :
    additionalSection { status := some "success", query := some "1.2.3.4" } []
        (min 80 (((84 : Nat) : Int) - 4)) = [] ↔
      (({ status := some "success", query := some "1.2.3.4" } : GeoRecord).proxy
          = none ∧
       ({ status := some "success", query := some "1.2.3.4" } : GeoRecord).hosting
          = none ∧
       ({ status := some "success", query := some "1.2.3.4" } : GeoRecord).mobile
          = none ∧
       ([] : List (String × JVal)) = []) :=
  (c5_sections_amended { status := some "success", query := some "1.2.3.4" } []
    "2025-03-01 12:00:00" 84 "1.2.3.4" rfl rfl).1

/-- Normal form of the JSON export dict: the `additional_info` and
`timestamp` keys are fresh, so the two dict assignments append. -/
theorem export_to_json_data_norm (g : GeoRecord) (ai : List (String × JVal))
    (ts : String) :
    export_to_json_data g ai ts =
      g.toDict ++ (if !ai.isEmpty then [("additional_info", jobj ai)] else []) ++
        [("timestamp", jstr ts)] := by
  rw [export_to_json_data]
  cases hne : (!ai.isEmpty)
  · rw [if_neg (show ¬(false = true) by decide),
      if_neg (show ¬(false = true) by decide)]
    rw [dictSet_fresh _ (timestamp_not_mem_toDict g), List.append_nil]
  · rw [if_pos rfl, if_pos rfl]
    rw [dictSet_fresh _ (not_mem_toDict_of_underscore g (by decide))]
    have hfresh : "timestamp" ∉
        (g.toDict ++ [("additional_info", jobj ai)]).map Prod.fst := by
      rw [List.map_append, List.mem_append]
      rintro (h | h)
      · exact timestamp_not_mem_toDict g h
      · simp only [List.map_cons, List.map_nil, List.mem_singleton] at h
        exact absurd h (by decide)
    rw [dictSet_fresh _ hfresh]

/-- C9: the JSON export object is the input record's entries unchanged,
followed by the enrichment object under `additional_info` exactly when
the enrichment dict is nonempty, followed by the generation timestamp
(`json.dump` then `json.load` of a string-keyed object is the identity,
so the parsed file is this object). -/
theorem c9_json_roundtrip (g : GeoRecord) (ai : List (String × JVal)) (ts : String) :
    ((export_to_json_data g ai ts).map Prod.fst =
      g.toDict.map Prod.fst ++ (if !ai.isEmpty then ["additional_info"] else []) ++
        ["timestamp"]) ∧
    (∀ k v, dictGet g.toDict k = some v →
      dictGet (export_to_json_data g ai ts) k = some v) ∧
    dictGet (export_to_json_data g ai ts) "timestamp" = some (jstr ts) ∧
    ((!ai.isEmpty) = true ↔
      dictGet (export_to_json_data g ai ts) "additional_info" = some (jobj ai)) := by
  rw [export_to_json_data_norm]
  refine ⟨?_, ?_, ?_, ?_⟩
  · cases hne : (!ai.isEmpty)
    · rw [if_neg (show ¬(false = true) by decide),
        if_neg (show ¬(false = true) by decide)]
      simp [List.map_append]
    · rw [if_pos rfl, if_pos rfl]
      simp [List.map_append]
  · intro k v h
    exact dictGet_append_of_some (dictGet_append_of_some h)
  · cases hne : (!ai.isEmpty)
    · rw [if_neg (show ¬(false = true) by decide), List.append_nil]
      rw [dictGet_append_of_none (dictGet_eq_none (timestamp_not_mem_toDict g))]
      rfl
    · rw [if_pos rfl]
      have hfresh : dictGet (g.toDict ++ [("additional_info", jobj ai)])
          "timestamp" = none := by
        apply dictGet_eq_none
        rw [List.map_append, List.mem_append]
        rintro (h | h)
        · exact timestamp_not_mem_toDict g h
        · simp only [List.map_cons, List.map_nil, List.mem_singleton] at h
          exact absurd h (by decide)
      rw [dictGet_append_of_none hfresh]
      rfl
  · cases hne : (!ai.isEmpty)
    · rw [if_neg (show ¬(false = true) by decide), List.append_nil]
      constructor
      · intro h; cases h
      · intro h
        exfalso
        rw [dictGet_append_of_none (dictGet_eq_none
          (not_mem_toDict_of_underscore g (by decide)))] at h
        rw [show dictGet [("timestamp", jstr ts)] "additional_info" = none
          from rfl] at h
        exact Option.noConfusion h
    · rw [if_pos rfl]
      constructor
      · intro _
        apply dictGet_append_of_some
        rw [dictGet_append_of_none (dictGet_eq_none
          (not_mem_toDict_of_underscore g (by decide)))]
        rfl
      · intro _; rfl

theorem additional_not_mem_toDict (g : GeoRecord) (k : String) :
    ("additional_" ++ k) ∉ g.toDict.map Prod.fst :=
  not_mem_toDict_of_underscore g (underscore_mem_additional k)

theorem additional_inj {a b : String}
    (h : "additional_" ++ a = "additional_" ++ b) : a = b :=
  str_append_left_cancel h

/-- The `additional_`-prefixed assignments (src lines 352-358) append
fresh keys, so the loop appends the prefixed entries in order. -/
theorem foldl_dictSet_fresh :
    ∀ (l acc : List (String × JVal)),
      (∀ p ∈ l, ("additional_" ++ p.1) ∉ acc.map Prod.fst) →
      (l.map Prod.fst).Nodup →
      l.foldl (fun a p => dictSet a ("additional_" ++ p.1) (csvFlattenVal p.2)) acc =
        acc ++ l.map (fun p => ("additional_" ++ p.1, csvFlattenVal p.2)) := by
  intro l
  induction l with
  | nil => intro acc _ _; simp
  | cons p t ih =>
    intro acc hfresh hnd
    rw [List.foldl_cons, dictSet_fresh _ (hfresh p (List.mem_cons_self _ _))]
    rw [ih (acc ++ [("additional_" ++ p.1, csvFlattenVal p.2)]) ?fresh ?nd]
    case fresh =>
      intro q hq
      rw [List.map_append, List.mem_append]
      rintro (h | h)
      · exact hfresh q (List.mem_cons_of_mem _ hq) h
      · simp only [List.map_cons, List.map_nil, List.mem_singleton] at h
        have he : q.1 = p.1 := additional_inj h
        have hm : p.1 ∈ t.map Prod.fst := he ▸ List.mem_map_of_mem Prod.fst hq
        exact (List.nodup_cons.mp hnd).1 hm
    case nd => exact (List.nodup_cons.mp hnd).2
    simp [List.append_assoc]

/-- Normal form of the CSV flat dict: geolocation entries, then the
prefixed enrichment entries in order, then the timestamp. -/
theorem export_to_csv_flat_norm (g : GeoRecord) (ai : List (String × JVal))
    (ts : String) (hnd : (ai.map Prod.fst).Nodup) :
    export_to_csv_flat g ai ts =
      g.toDict ++ ai.map (fun p => ("additional_" ++ p.1, csvFlattenVal p.2)) ++
        [("timestamp", jstr ts)] := by
  rw [export_to_csv_flat]
  rw [foldl_dictSet_fresh ai g.toDict (fun p _ => additional_not_mem_toDict g p.1) hnd]
  have hfresh : "timestamp" ∉
      (g.toDict ++ ai.map
        (fun p => ("additional_" ++ p.1, csvFlattenVal p.2))).map Prod.fst := by
    rw [List.map_append, List.mem_append]
    rintro (h | h)
    · exact timestamp_not_mem_toDict g h
    · rw [List.map_map] at h
      obtain ⟨p, -, he⟩ := List.mem_map.mp h
      exact timestamp_ne_additional p.1 he.symm
  rw [dictSet_fresh _ hfresh]

/-- Lookup of one prefixed enrichment entry among the mapped entries. -/
theorem dictGet_csvAdd :
    ∀ (ai : List (String × JVal)) (k : String) (v : JVal),
      (ai.map Prod.fst).Nodup → (k, v) ∈ ai →
      dictGet (ai.map fun p => ("additional_" ++ p.1, csvFlattenVal p.2))
        ("additional_" ++ k) = some (csvFlattenVal v) := by
  intro ai
  induction ai with
  | nil => intro k v _ hmem; cases hmem
  | cons p t ih =>
    intro k v hnd hmem
    rw [List.map_cons]
    rw [show dictGet (("additional_" ++ p.1, csvFlattenVal p.2) ::
        t.map (fun p => ("additional_" ++ p.1, csvFlattenVal p.2)))
        ("additional_" ++ k) =
      if "additional_" ++ p.1 = "additional_" ++ k then some (csvFlattenVal p.2)
      else dictGet (t.map fun p => ("additional_" ++ p.1, csvFlattenVal p.2))
        ("additional_" ++ k) from rfl]
    by_cases he : p.1 = k
    · rw [if_pos (by rw [he])]
      rcases List.mem_cons.mp hmem with h | h
      · rw [show p = (k, v) from h.symm]
      · exfalso
        have : k ∈ t.map Prod.fst := List.mem_map_of_mem Prod.fst h
        exact (List.nodup_cons.mp hnd).1 (he ▸ this)
    · rw [if_neg (fun hh => he (additional_inj hh))]
      rcases List.mem_cons.mp hmem with h | h
      · exact absurd (congrArg Prod.fst h).symm he
      · exact ih k v (List.nodup_cons.mp hnd).2 h

/-- C8 counterexample: the claim says mapping-valued fields are
flattened to a string of `key: value` pairs.  The currencies mapping
(whose values are dicts, not strings) is flattened to the bare key
list — a string with no `key: value` pair (no colon at all). -/
theorem c8_flatten_not_key_value_pairs :
    csvFlattenDict [("USD", jobj [("name", jstr "US Dollar")]),
                    ("EUR", jobj [("name", jstr "Euro")])] = "USD, EUR" ∧
    ("USD, EUR" : String).data.contains ':' = false :=
  ⟨rfl, by decide⟩

/-- C8 amended: the CSV export writes exactly two records (header and
one data row) of equal column count; every enrichment entry appears
under an `additional_`-prefixed column; the timestamp is the final
column of both rows; a mapping-valued enrichment field is flattened to
one string joined by `", "` whose items are `key: value` for
string-valued entries and the bare `key` otherwise. -/
theorem c8_csv_export_amended (g : GeoRecord) (ai : List (String × JVal))
    (ts : String) (hnd : (ai.map Prod.fst).Nodup) :
    (export_to_csv_records g ai ts).length = 2 ∧
    (export_to_csv_lines g ai ts).length = 2 ∧
    ((export_to_csv_records g ai ts).headD []).length =
      ((export_to_csv_records g ai ts).getLastD []).length ∧
    ((export_to_csv_records g ai ts).headD []).getLast? = some "timestamp" ∧
    ((export_to_csv_records g ai ts).getLastD []).getLast? = some ts ∧
    (∀ k v, (k, v) ∈ ai →
      dictGet (export_to_csv_flat g ai ts) ("additional_" ++ k) =
        some (csvFlattenVal v)) ∧
    (∀ k l, (k, jobj l) ∈ ai →
      dictGet (export_to_csv_flat g ai ts) ("additional_" ++ k) =
        some (jstr (csvFlattenDict l))) := by
  have hflat := export_to_csv_flat_norm g ai ts hnd
  refine ⟨rfl, rfl, ?_, ?_, ?_, ?_, ?_⟩
  · simp [export_to_csv_records]
  · show ((export_to_csv_flat g ai ts).map Prod.fst).getLast? = some "timestamp"
    rw [hflat, List.map_append, List.map_append]
    rw [show ((([("timestamp", jstr ts)] : List (String × JVal)).map Prod.fst) =
      ["timestamp"]) from rfl]
    exact List.getLast?_concat _
  · show ((export_to_csv_flat g ai ts).map fun p => csvCell p.2).getLast? = some ts
    rw [hflat, List.map_append, List.map_append]
    rw [show ((([("timestamp", jstr ts)] : List (String × JVal)).map
      fun p => csvCell p.2) = [ts]) from rfl]
    exact List.getLast?_concat _
  · intro k v hmem
    rw [hflat]
    apply dictGet_append_of_some
    rw [dictGet_append_of_none (dictGet_eq_none (additional_not_mem_toDict g k))]
    exact dictGet_csvAdd ai k v hnd hmem
  · intro k l hmem
    rw [hflat]
    apply dictGet_append_of_some
    rw [dictGet_append_of_none (dictGet_eq_none (additional_not_mem_toDict g k))]
    exact dictGet_csvAdd ai k (jobj l) hnd hmem

/-! ## C2: the validator against the dotted-quad grammar -/

theorem parseNum_cons (c : Char) (cs : List Char) :
    parseNum (c :: cs) =
      if c.isDigit then
        if c = '0' then
          (match cs with
          | x :: cs' =>
            if x = 'x' ∨ x = 'X' then
              match cs' with
              | d :: _ =>
                if isHexDigitC d then some (parseLoop isHexDigitC hexVal 16 0 cs')
                else some (0, cs)
              | [] => some (0, cs)
            else some (parseLoop isOctDigit digitVal 8 0 cs)
          | [] => some (0, []))
        else some (parseLoop Char.isDigit digitVal 10 (digitVal c) cs)
      else none := rfl

theorem inetLoop_succ (rem : Nat) (cs : List Char) :
    inetLoop (rem + 1) cs =
      match parseNum cs with
      | none => false
      | some (v, rest) =>
        match rest with
        | [] => decide (v < 256 ^ (rem + 1))
        | '.' :: rest' => decide (v ≤ 255) && inetLoop rem rest'
        | _ => false := rfl

/-- The decimal scanner consumes exactly a digit run and stops at a
non-digit (or the end). -/
theorem parseLoop_digits :
    ∀ (t : List Char) (acc : Nat) (rest : List Char),
      t.all Char.isDigit = true →
      (∀ c r, rest = c :: r → c.isDigit = false) →
      parseLoop Char.isDigit digitVal 10 acc (t ++ rest) =
        (t.foldl (fun a c => a * 10 + digitVal c) acc, rest) := by
  intro t
  induction t with
  | nil =>
    intro acc rest _ hrest
    rcases rest with _ | ⟨c, r⟩
    · rfl
    · rw [List.nil_append, List.foldl_nil,
        show parseLoop Char.isDigit digitVal 10 acc (c :: r) =
          if c.isDigit then parseLoop Char.isDigit digitVal 10 (acc * 10 + digitVal c) r
          else (acc, c :: r) from rfl,
        if_neg (by simp [hrest c r rfl])]
  | cons d t ih =>
    intro acc rest hall hrest
    rw [List.all_cons, Bool.and_eq_true] at hall
    rw [List.cons_append,
      show parseLoop Char.isDigit digitVal 10 acc (d :: (t ++ rest)) =
        if d.isDigit then
          parseLoop Char.isDigit digitVal 10 (acc * 10 + digitVal d) (t ++ rest)
        else (acc, d :: (t ++ rest)) from rfl,
      if_pos hall.1, List.foldl_cons]
    exact ih _ rest hall.2 hrest

set_option maxRecDepth 8000 in
/-- Decimal renderings of the naturals below 256: nonempty, all digits,
value-faithful, and `0` is the only one with a leading zero. -/
theorem repr_facts : ∀ n, n < 256 →
    (Nat.repr n).data ≠ [] ∧ (Nat.repr n).data.all Char.isDigit = true ∧
    decVal (Nat.repr n).data = n ∧
    ((Nat.repr n).data.head? = some '0' → (Nat.repr n).data = ['0']) := by decide

/-- `strtoul` on the decimal rendering of `n < 256` followed by a dot
or the end of the string reads back exactly `n`. -/
theorem parseNum_repr (n : Nat) (hn : n < 256) (rest : List Char)
    (hrest : rest = [] ∨ ∃ r, rest = '.' :: r) :
    parseNum ((Nat.repr n).data ++ rest) = some (n, rest) := by
  obtain ⟨hne, hall, hval, hzero⟩ := repr_facts n hn
  rcases hds : (Nat.repr n).data with _ | ⟨d, t⟩
  · exact absurd hds hne
  · rw [hds] at hall hval hzero
    rw [List.all_cons, Bool.and_eq_true] at hall
    by_cases hd0 : d = '0'
    · have hsingle : d :: t = ['0'] := hzero (by rw [hd0]; rfl)
      have hn0 : n = 0 := by
        rw [hsingle] at hval
        simpa [decVal, digitVal] using hval.symm
      rw [hsingle, hn0]
      rcases hrest with rfl | ⟨r, rfl⟩
      · rfl
      · rfl
    · rw [List.cons_append, parseNum_cons, if_pos hall.1, if_neg hd0]
      rw [parseLoop_digits t (digitVal d) rest hall.2 ?hd]
      case hd =>
        intro c r hr
        rcases hrest with rfl | ⟨r', rfl⟩
        · cases hr
        · cases hr; rfl
      have hvd : t.foldl (fun a c => a * 10 + digitVal c) (digitVal d) = n := by
        rw [← hval, decVal, List.foldl_cons]
        simp
      rw [hvd]

theorem inetLoop_step (rem n : Nat) (hn : n ≤ 255) (cs rest' : List Char)
    (hds : parseNum cs = some (n, '.' :: rest')) :
    inetLoop (rem + 1) cs = inetLoop rem rest' := by
  rw [inetLoop_succ, hds]
  show (decide (n ≤ 255) && inetLoop rem rest') = inetLoop rem rest'
  rw [decide_eq_true hn, Bool.true_and]

theorem inetLoop_last (rem n : Nat) (hn : n < 256 ^ (rem + 1)) (ds : List Char)
    (hds : parseNum ds = some (n, [])) : inetLoop (rem + 1) ds = true := by
  rw [inetLoop_succ, hds]
  show decide (n < 256 ^ (rem + 1)) = true
  exact decide_eq_true hn

/-- Every canonical dotted-quad (each octet rendered in decimal, no
leading zeros) is accepted by `validate_ip`. -/
theorem validate_ip_canonical_quad (a b c d : Nat) (ha : a ≤ 255) (hb : b ≤ 255)
    (hc : c ≤ 255) (hd : d ≤ 255) :
    validate_ip (Nat.repr a ++ "." ++ Nat.repr b ++ "." ++ Nat.repr c ++ "." ++
      Nat.repr d) = true := by
  rw [validate_ip]
  have hdot : ("." : String).data = ['.'] := rfl
  have hdata : (Nat.repr a ++ "." ++ Nat.repr b ++ "." ++ Nat.repr c ++ "." ++
      Nat.repr d).data =
      (Nat.repr a).data ++ '.' :: ((Nat.repr b).data ++ '.' ::
        ((Nat.repr c).data ++ '.' :: (Nat.repr d).data)) := by
    simp only [str_data_append, hdot, List.append_assoc, List.singleton_append,
      List.cons_append, List.nil_append]
  rw [hdata]
  show inetLoop (3 + 1) _ = true
  rw [inetLoop_step 3 a ha _ _
    (parseNum_repr a (by omega) _ (Or.inr ⟨_, rfl⟩))]
  show inetLoop (2 + 1) _ = true
  rw [inetLoop_step 2 b hb _ _
    (parseNum_repr b (by omega) _ (Or.inr ⟨_, rfl⟩))]
  show inetLoop (1 + 1) _ = true
  rw [inetLoop_step 1 c hc _ _
    (parseNum_repr c (by omega) _ (Or.inr ⟨_, rfl⟩))]
  show inetLoop (0 + 1) _ = true
  have hlast : parseNum ((Nat.repr d).data ++ []) = some (d, []) :=
    parseNum_repr d (by omega) [] (Or.inl rfl)
  rw [List.append_nil] at hlast
  exact inetLoop_last 0 d (by rw [pow_one]; omega) _ hlast

/-- C2 counterexample: the claim says `validate` accepts only strict
four-octet dotted-decimal strings, but `socket.inet_aton` also accepts
the three-part numbers-and-dots form `8.8.8`. -/
theorem c2_validate_not_strict_quad_only :
    validate_ip "8.8.8" = true ∧ isStrictIPv4Spec "8.8.8" = false :=
  ⟨by decide, by decide⟩

/-- C2 amended: `validate` accepts every canonical dotted-quad (four
decimal octets 0-255) and behaves as the claim's examples state, but it
is not restricted to that grammar: `inet_aton` numbers-and-dots forms
such as `8.8.8` are accepted too. -/
theorem c2_validate_ip_amended :
    (∀ a b c d : Nat, a ≤ 255 → b ≤ 255 → c ≤ 255 → d ≤ 255 →
      validate_ip (Nat.repr a ++ "." ++ Nat.repr b ++ "." ++ Nat.repr c ++ "." ++
        Nat.repr d) = true) ∧
    validate_ip "8.8.8.8" = true ∧
    validate_ip "" = false ∧
    validate_ip "8.8.8.8.8" = false ∧
    validate_ip "999.1.1.1" = false ∧
    validate_ip "abc" = false ∧
    validate_ip "8.8.8" = true :=
  ⟨validate_ip_canonical_quad, by decide, by decide, by decide, by decide,
    by decide, by decide⟩

/-- C8 witness: the timestamp is the final header column for a concrete
record and enrichment dict. -/
theorem c8_csv_export_witness :
    ((export_to_csv_records { status := some "success", query := some "8.8.8.8" }
        [("currencies", jobj [("USD", jobj [("name", jstr "US Dollar")])]),
         ("languages", jobj [("en", jstr "English")])]
        "2025-03-01 12:00:00").headD []).getLast? = some "timestamp" :=
  (c8_csv_export_amended { status := some "success", query := some "8.8.8.8" }
    [("currencies", jobj [("USD", jobj [("name", jstr "US Dollar")])]),
     ("languages", jobj [("en", jstr "English")])]
    "2025-03-01 12:00:00" (by decide)).2.2.2.1

end IpGeoTool
